import Mathlib

/-!
Shallow embedding of the client-side reactive state container of the
node-angular task application.

The embedded code is TaskStateService (the state container built on
BehaviorSubject, with optimistic create/update/delete and rollback) and the
surface of TaskService it relies on. Each operation of the service is split
into the code that runs synchronously at invocation time (the optimistic
phase, everything before the remote call is subscribed) and the completion
handlers that run when the remote call resolves (the tap callback on
success, the catchError callback on failure). The BehaviorSubject triple
(tasksSubject, loadingSubject, errorSubject) becomes an explicit record of
the currently published values; each subject.next call becomes a record
update. Clock readings (Date.now, new Date) are passed in as explicit Nat
parameters. The private write-only boolean flag of the service (set after
the first successful load, reset by refreshTasks) is read by no code path,
so it is omitted from the state record.
-/

namespace TaskApp

/-- The Task model (shared/models/task.model). Dates are modelled as clock
readings (Nat); optional dates as Option Nat. Status is a String, compared
with string equality as the source compares with triple equals. -/
structure Task where
  _id : String
  title : String
  description : String
  status : String
  dueDate : Option Nat
  createdAt : Option Nat
  updatedAt : Option Nat
deriving Repr, DecidableEq

/-- The argument of createTask: a Task without _id, createdAt, updatedAt. -/
structure Draft where
  title : String
  description : String
  status : String
  dueDate : Option Nat
deriving Repr, DecidableEq

/-- The argument of updateTask. The remote client sends exactly the fields
title, description, status, dueDate in its PUT payload, so the patch record
carries those four, each optional as in a TypeScript Partial type. -/
structure TaskPatch where
  title : Option String
  description : Option String
  status : Option String
  dueDate : Option (Option Nat)
deriving Repr, DecidableEq

/-- The values currently published by the three BehaviorSubjects of
TaskStateService: tasksSubject, loadingSubject, errorSubject. -/
structure ContainerState where
  tasks : List Task
  loading : Bool
  error : Option String
deriving Repr, DecidableEq

/-- JavaScript message fallback (the or-operator on message strings): the
fallback is used when the message is absent or empty, both being falsy. An
absent message is modelled as the empty string. -/
def errOr (msg fallback : String) : String :=
  if msg = "" then fallback else msg

/-- The temporary id synthesized by createTask: the string temp- followed
by the Date.now() reading. -/
def tempId (now : Nat) : String :=
  "temp-" ++ toString now

/-- The spread of originalTask, then updates, then a fresh updatedAt stamp
in updateTask: fields present in the patch win, _id and createdAt are
kept, updatedAt is stamped with the clock. -/
def applyPatch (originalTask : Task) (updates : TaskPatch) (now : Nat) : Task :=
  { _id := originalTask._id
    title := updates.title.getD originalTask.title
    description := updates.description.getD originalTask.description
    status := updates.status.getD originalTask.status
    dueDate := updates.dueDate.getD originalTask.dueDate
    createdAt := originalTask.createdAt
    updatedAt := some now }

/-- getTaskCountByStatus: the function mapped over tasks emissions, namely
the length of the tasks filtered for status equality. -/
def getTaskCountByStatus (status : String) (tasks : List Task) : Nat :=
  (tasks.filter (fun task => task.status == status)).length

/-- getTasksByStatus: the function mapped over tasks emissions. -/
def getTasksByStatus (status : String) (tasks : List Task) : List Task :=
  tasks.filter (fun task => task.status == status)

/-- loadTasks, synchronous part: if loadingSubject.value is set the call
returns at once (no request is started, second component false); otherwise
loading is set, the error cleared, and the remote fetch is started (second
component true). -/
def invokeLoad (s : ContainerState) : ContainerState × Bool :=
  if s.loading then (s, false)
  else ({ s with loading := true, error := none }, true)

/-- loadTasks, tap handler on success: publish the fetched tasks, clear
loading. -/
def completeLoadOk (s : ContainerState) (ts : List Task) : ContainerState :=
  { s with tasks := ts, loading := false }

/-- loadTasks, catchError handler: set the error message (with fallback),
clear loading, leave tasks untouched. -/
def completeLoadErr (s : ContainerState) (msg : String) : ContainerState :=
  { s with error := some (errOr msg "Failed to load tasks"), loading := false }

/-- The tempTask built by createTask from the draft and the clock. -/
def mkTempTask (d : Draft) (now : Nat) : Task :=
  { _id := tempId now
    title := d.title
    description := d.description
    status := d.status
    dueDate := d.dueDate
    createdAt := some now
    updatedAt := some now }

/-- createTask, synchronous part: append the temp task to the published
collection, set loading, clear the error. The created temp task is
returned alongside so completion handlers can refer to its id. -/
def invokeCreate (s : ContainerState) (d : Draft) (now : Nat) :
    ContainerState × Task :=
  let tempTask := mkTempTask d now
  ({ s with tasks := s.tasks ++ [tempTask], loading := true, error := none },
   tempTask)

/-- createTask, tap handler on success: replace every task whose _id equals
the temp id with the server task, clear loading. The observable emission
passed through to the caller is the server task itself (second
component). -/
def completeCreateOk (s : ContainerState) (tid : String) (newTask : Task) :
    ContainerState × Task :=
  ({ s with
      tasks := s.tasks.map (fun t => if t._id == tid then newTask else t)
      loading := false },
   newTask)

/-- createTask, catchError handler: drop every task whose _id equals the
temp id from the currently published collection, set the error, clear
loading. -/
def completeCreateErr (s : ContainerState) (tid : String) (msg : String) :
    ContainerState :=
  { s with
      tasks := s.tasks.filter (fun t => t._id != tid)
      error := some (errOr msg "Failed to create task")
      loading := false }

/-- The closure state captured by updateTask for its completion handlers:
the snapshot read at invocation time, the found index, the original task,
and the target id. -/
structure UpdatePending where
  snapshot : List Task
  index : Nat
  original : Task
  id : String
deriving Repr, DecidableEq

/-- updateTask, synchronous part. findIndex returning the not-found
sentinel becomes the index lookup coming back none; in that case the
method returns throwError without touching any subject. Otherwise the
optimistic merged task replaces the entry at the found index, loading is
set, the error cleared, and the captured closure state is returned. -/
def invokeUpdate (s : ContainerState) (id : String) (updates : TaskPatch)
    (now : Nat) : Except String (ContainerState × UpdatePending) :=
  let currentTasks := s.tasks
  let taskIndex := currentTasks.findIdx (fun t => t._id == id)
  match currentTasks[taskIndex]? with
  | none => .error "Task not found in state"
  | some originalTask =>
    let optimisticTask := applyPatch originalTask updates now
    let updatedTasks := currentTasks.set taskIndex optimisticTask
    .ok ({ s with tasks := updatedTasks, loading := true, error := none },
         ⟨currentTasks, taskIndex, originalTask, id⟩)

/-- updateTask, tap handler on success: replace every task whose _id equals
the target id with the task returned by the server, clear loading. -/
def completeUpdateOk (s : ContainerState) (id : String) (updatedTask : Task) :
    ContainerState :=
  { s with
      tasks := s.tasks.map (fun t => if t._id == id then updatedTask else t)
      loading := false }

/-- updateTask, catchError handler: publish the captured snapshot with the
original task written back at the captured index, set the error, clear
loading. The handler rebuilds from the captured snapshot, not from the
currently published collection. -/
def completeUpdateErr (s : ContainerState) (pend : UpdatePending)
    (msg : String) : ContainerState :=
  { s with
      tasks := pend.snapshot.set pend.index pend.original
      error := some (errOr msg "Failed to update task")
      loading := false }

/-- deleteTask, synchronous part. If find comes back empty the method
returns throwError without touching any subject. Otherwise the target is
filtered out of the collection, loading is set, the error cleared, and the
captured pre-mutation snapshot is returned for the rollback handler. -/
def invokeDelete (s : ContainerState) (id : String) :
    Except String (ContainerState × List Task) :=
  let currentTasks := s.tasks
  match currentTasks.find? (fun t => t._id == id) with
  | none => .error "Task not found in state"
  | some _ =>
    .ok ({ s with
            tasks := currentTasks.filter (fun t => t._id != id)
            loading := true
            error := none },
         currentTasks)

/-- deleteTask, tap handler on success: only loading is cleared, the
collection was already updated optimistically. -/
def completeDeleteOk (s : ContainerState) : ContainerState :=
  { s with loading := false }

/-- deleteTask, catchError handler: publish the captured pre-mutation
snapshot wholesale, set the error, clear loading. -/
def completeDeleteErr (s : ContainerState) (snapshot : List Task)
    (msg : String) : ContainerState :=
  { s with
      tasks := snapshot
      error := some (errOr msg "Failed to delete task")
      loading := false }

/-- The published state after an updateTask invocation as a plain state
transformer: on the throwError path no subject is touched, so the
published state is unchanged. -/
def updateInvokeState (s : ContainerState) (id : String) (updates : TaskPatch)
    (now : Nat) : ContainerState :=
  match invokeUpdate s id updates now with
  | .error _ => s
  | .ok (s1, _) => s1

/-- The published state after a deleteTask invocation as a plain state
transformer: on the throwError path no subject is touched. -/
def deleteInvokeState (s : ContainerState) (id : String) : ContainerState :=
  match invokeDelete s id with
  | .error _ => s
  | .ok (s1, _) => s1

/-- The initial state of the container: the BehaviorSubjects start with the
empty list, false, and null. -/
def initialState : ContainerState :=
  { tasks := [], loading := false, error := none }

/-- One observable transition of the container: the synchronous phase of an
operation or one of its completion handlers. Completion constructors carry
the environment facts the transition depends on: the backend returns
id-fresh entities (loadOk, createOk, updateOk), a synthesized temp id does
not collide with an already published id (createStart), and rollback
handlers run with closure state captured by a real earlier invocation on a
duplicate-free snapshot (updateErr, deleteErr). -/
inductive OpStep : ContainerState → ContainerState → Prop where
  | loadStart (s : ContainerState) : OpStep s (invokeLoad s).1
  | loadOk (s : ContainerState) (ts : List Task)
      (hts : (ts.map Task._id).Nodup) : OpStep s (completeLoadOk s ts)
  | loadErr (s : ContainerState) (msg : String) :
      OpStep s (completeLoadErr s msg)
  | createStart (s : ContainerState) (d : Draft) (now : Nat)
      (hfresh : ∀ t ∈ s.tasks, t._id ≠ tempId now) :
      OpStep s (invokeCreate s d now).1
  | createOk (s : ContainerState) (tid : String) (server : Task)
      (hfresh : ∀ t ∈ s.tasks, t._id ≠ tid → t._id ≠ server._id) :
      OpStep s (completeCreateOk s tid server).1
  | createErr (s : ContainerState) (tid msg : String) :
      OpStep s (completeCreateErr s tid msg)
  | updateStart (s s1 : ContainerState) (i : String) (p : TaskPatch)
      (now : Nat) (pend : UpdatePending)
      (h : invokeUpdate s i p now = .ok (s1, pend)) : OpStep s s1
  | updateOk (s : ContainerState) (i : String) (server : Task)
      (hfresh : ∀ t ∈ s.tasks, t._id ≠ i → t._id ≠ server._id) :
      OpStep s (completeUpdateOk s i server)
  | updateErr (s s0 s1 : ContainerState) (i : String) (p : TaskPatch)
      (now : Nat) (pend : UpdatePending) (msg : String)
      (horig : invokeUpdate s0 i p now = .ok (s1, pend))
      (h0 : (s0.tasks.map Task._id).Nodup) :
      OpStep s (completeUpdateErr s pend msg)
  | deleteStart (s s1 : ContainerState) (i : String) (snap : List Task)
      (h : invokeDelete s i = .ok (s1, snap)) : OpStep s s1
  | deleteOk (s : ContainerState) : OpStep s (completeDeleteOk s)
  | deleteErr (s s0 s1 : ContainerState) (i : String) (snap : List Task)
      (msg : String) (horig : invokeDelete s0 i = .ok (s1, snap))
      (h0 : (s0.tasks.map Task._id).Nodup) :
      OpStep s (completeDeleteErr s snap msg)

/-- The count the spec asks to compare against: manually filtering the
latest emitted collection for entities whose status equals the given
status, and taking the length. Written from the spec words, to be compared
with the definition taken from the source. -/
def specManualStatusCount (status : String) (snapshot : List Task) : Nat :=
  (snapshot.filter (fun t => t.status == status)).length

/-- A concrete persisted task used in witnesses and counterexamples. -/
def exTask : Task := ⟨"1", "a", "d", "todo", none, none, none⟩

/-- A state holding exactly the concrete task. -/
def exS0 : ContainerState := { tasks := [exTask], loading := false, error := none }

/-- A concrete draft. -/
def exDraftA : Draft := ⟨"A", "", "todo", none⟩

/-- A second concrete draft. -/
def exDraftB : Draft := ⟨"B", "", "todo", none⟩

/-- A concrete backend-assigned task, as in the spec scenario. -/
def exServer : Task := ⟨"server-1", "A", "", "todo", none, some 9, some 9⟩

/-- The empty patch. -/
def exEmptyPatch : TaskPatch := ⟨none, none, none, none⟩

/-- First patch of the ordering scenario: change the title. -/
def exPatch1 : TaskPatch := ⟨some "X", none, none, none⟩

/-- Second patch of the ordering scenario: change the description. -/
def exPatch2 : TaskPatch := ⟨none, some "Y", none, none⟩

/-- Third patch of the ordering scenario: change the status. -/
def exPatch3 : TaskPatch := ⟨none, none, some "done", none⟩

/-- State after the first update invocation of the ordering scenario. -/
def exS1 : ContainerState := updateInvokeState exS0 "1" exPatch1 1

/-- State after the second update invocation of the ordering scenario. -/
def exS2 : ContainerState := updateInvokeState exS1 "1" exPatch2 2

/-- State after the third update invocation of the ordering scenario. -/
def exS3 : ContainerState := updateInvokeState exS2 "1" exPatch3 3

/-- Backend response to the first update: the entity after patch one, as
returned by a server that applies requests in the order they were sent. -/
def exResp1 : Task := applyPatch exTask exPatch1 10

/-- Backend response to the second update: patches one and two applied. -/
def exResp2 : Task := applyPatch exResp1 exPatch2 11

/-- Backend response to the third update: all three patches applied. -/
def exResp3 : Task := applyPatch exResp2 exPatch3 12

/-- Final state when the responses arrive in the order one, three, two:
each success handler overwrites the entity with its own response. -/
def exFinalOutOfOrder : ContainerState :=
  completeUpdateOk (completeUpdateOk (completeUpdateOk exS3 "1" exResp1) "1" exResp3) "1" exResp2

/-- Two creates invoked during the same millisecond (both read 5 from the
clock): both temp tasks carry the id temp-5. -/
def exDupCreates : ContainerState :=
  (invokeCreate (invokeCreate initialState exDraftA 5).1 exDraftB 5).1

/-- The state published by updating the concrete task with patch one. -/
def exUpd1State : ContainerState :=
  { tasks := [applyPatch exTask exPatch1 1], loading := true, error := none }

/-- The closure state captured by that update invocation. -/
def exUpd1Pend : UpdatePending := ⟨[exTask], 0, exTask, "1"⟩

/-- The state published by deleting the concrete task. -/
def exDel1State : ContainerState := { tasks := [], loading := true, error := none }

lemma set_of_getElem?_eq {α : Type _} :
    ∀ (l : List α) (i : Nat) (a : α), l[i]? = some a → l.set i a = l := by
  intro l
  induction l with
  | nil => intro i a h; simp at h
  | cons x xs ih =>
    intro i a h
    cases i with
    | zero => simp_all
    | succ n =>
      simp only [List.getElem?_cons_succ] at h
      simp [List.set, ih n a h]

lemma findIdx_getElem?_none {α : Type _} (p : α → Bool) :
    ∀ (l : List α), (∀ x ∈ l, p x = false) → l[l.findIdx p]? = none := by
  intro l
  induction l with
  | nil => intro _; rfl
  | cons x xs ih =>
    intro h
    have hx : p x = false := h x (by simp)
    simp only [List.findIdx_cons, hx, cond_false]
    simpa using ih (fun t ht => h t (by simp [ht]))

lemma invokeUpdate_ok_inv {s s1 : ContainerState} {id : String} {p : TaskPatch}
    {now : Nat} {pend : UpdatePending}
    (h : invokeUpdate s id p now = .ok (s1, pend)) :
    pend.snapshot = s.tasks ∧ pend.id = id ∧
    pend.index = s.tasks.findIdx (fun t => t._id == id) ∧
    s.tasks[pend.index]? = some pend.original ∧
    s1 = { s with tasks := s.tasks.set pend.index (applyPatch pend.original p now),
                  loading := true, error := none } := by
  simp only [invokeUpdate] at h
  split at h
  · exact absurd h (by simp)
  · rename_i originalTask heq
    obtain ⟨h1, h2⟩ := Prod.mk.injEq .. ▸ (Except.ok.inj h)
    subst h2
    exact ⟨rfl, rfl, rfl, heq, h1.symm⟩

lemma invokeDelete_ok_inv {s s1 : ContainerState} {id : String}
    {snap : List Task}
    (h : invokeDelete s id = .ok (s1, snap)) :
    snap = s.tasks ∧
    (∃ t ∈ s.tasks, (t._id == id) = true) ∧
    s1 = { s with tasks := s.tasks.filter (fun t => t._id != id),
                  loading := true, error := none } := by
  simp only [invokeDelete] at h
  split at h
  · exact absurd h (by simp)
  · rename_i t heq
    obtain ⟨h1, h2⟩ := Prod.mk.injEq .. ▸ (Except.ok.inj h)
    subst h2
    have hm : t ∈ s.tasks := List.mem_of_find?_eq_some heq
    have hp : (t._id == id) = true :=
      List.find?_some (p := fun (u : Task) => u._id == id) heq
    exact ⟨rfl, ⟨t, hm, hp⟩, h1.symm⟩

lemma map_replace_eq_self (l : List Task) (tid : String) (srv : Task)
    (h : ∀ t ∈ l, t._id ≠ tid) :
    l.map (fun t => if t._id == tid then srv else t) = l := by
  have hpt : ∀ t ∈ l, (fun t => if t._id == tid then srv else t) t = id t := by
    intro t ht
    simp [h t ht]
  rw [List.map_congr_left hpt, List.map_id]

lemma not_mem_ids_map_replace (l : List Task) (tid : String) (srv : Task)
    (h : srv._id ≠ tid) :
    tid ∉ (l.map (fun t => if t._id == tid then srv else t)).map Task._id := by
  induction l with
  | nil => simp
  | cons x xs ih =>
    simp only [List.map_cons, List.mem_cons]
    push_neg
    refine ⟨?_, ih⟩
    by_cases hx : x._id = tid
    · simpa [hx] using fun he => h he.symm
    · simp [hx]
      exact fun he => hx he.symm

lemma nodup_ids_map_replace (tid : String) (srv : Task) :
    ∀ (l : List Task), (l.map Task._id).Nodup →
    (∀ t ∈ l, t._id ≠ tid → t._id ≠ srv._id) →
    ((l.map (fun t => if t._id == tid then srv else t)).map Task._id).Nodup := by
  intro l
  induction l with
  | nil => intro _ _; simp
  | cons x xs ih =>
    intro hn hfresh
    simp only [List.map_cons, List.nodup_cons] at hn ⊢
    obtain ⟨hx_notmem, hxs⟩ := hn
    by_cases hx : x._id = tid
    · -- the head is the replaced task; no tail task carries tid
      have htail : ∀ t ∈ xs, t._id ≠ tid := by
        intro t ht he
        exact hx_notmem (by rw [← he] at hx; rw [hx]; exact List.mem_map_of_mem _ ht)
      have hhead : (if (x._id == tid) = true then srv else x) = srv := by simp [hx]
      rw [map_replace_eq_self xs tid srv htail, hhead]
      refine ⟨?_, hxs⟩
      intro hmem
      obtain ⟨t, ht, he⟩ := List.mem_map.1 hmem
      exact hfresh t (List.mem_cons_of_mem x ht) (htail t ht) he
    · have hhead : (if (x._id == tid) = true then srv else x) = x := by simp [hx]
      rw [hhead]
      refine ⟨?_, ih hxs (fun t ht => hfresh t (List.mem_cons_of_mem x ht))⟩
      intro hmem
      obtain ⟨t, ht, he⟩ := List.mem_map.1 hmem
      obtain ⟨u, hu, hue⟩ := List.mem_map.1 ht
      by_cases hut : u._id = tid
      · have ht_srv : t = srv := by rw [← hue]; simp [hut]
        subst ht_srv
        exact hfresh x (List.mem_cons_self x xs) hx (he.symm)
      · have ht_u : t = u := by rw [← hue]; simp [hut]
        subst ht_u
        exact hx_notmem (he ▸ List.mem_map_of_mem _ hu)

lemma map_replace_comp (l : List Task) (i : String) (ra rb : Task)
    (ha : ra._id = i) :
    (l.map (fun t => if t._id == i then ra else t)).map
        (fun t => if t._id == i then rb else t)
      = l.map (fun t => if t._id == i then rb else t) := by
  rw [List.map_map]
  apply List.map_congr_left
  intro t _
  by_cases ht : t._id = i
  · simp [Function.comp, ht, ha]
  · simp [Function.comp, ht]

lemma opStep_preserves_nodup_ids {s s1 : ContainerState} (h : OpStep s s1)
    (hn : (s.tasks.map Task._id).Nodup) : (s1.tasks.map Task._id).Nodup := by
  cases h with
  | loadStart =>
    simp only [invokeLoad]
    split <;> exact hn
  | loadOk ts hts => exact hts
  | loadErr msg => exact hn
  | createStart d now hfresh =>
    simp only [invokeCreate, List.map_append, List.nodup_append]
    refine ⟨hn, by simp [mkTempTask], ?_⟩
    intro a ha hb
    simp only [mkTempTask, List.map_cons, List.map_nil, List.mem_singleton] at hb
    obtain ⟨t, ht, he⟩ := List.mem_map.1 ha
    exact hfresh t ht (he.trans hb)
  | createOk tid server hfresh =>
    exact nodup_ids_map_replace tid server s.tasks hn hfresh
  | createErr tid msg =>
    exact hn.sublist ((List.filter_sublist s.tasks).map Task._id)
  | updateStart s2 i p now pend hinv =>
    obtain ⟨-, -, -, hget, hs1⟩ := invokeUpdate_ok_inv hinv
    subst hs1
    have hms : (s.tasks.set pend.index (applyPatch pend.original p now)).map Task._id
        = (s.tasks.map Task._id).set pend.index (applyPatch pend.original p now)._id :=
      List.map_set ..
    simp only [hms]
    have hid : (applyPatch pend.original p now)._id = pend.original._id := rfl
    rw [hid]
    have hgetm : (s.tasks.map Task._id)[pend.index]? = some pend.original._id := by
      rw [List.getElem?_map, hget]; rfl
    rw [set_of_getElem?_eq _ _ _ hgetm]
    exact hn
  | updateOk i server hfresh =>
    exact nodup_ids_map_replace i server s.tasks hn hfresh
  | updateErr s0 s2 i p now pend msg horig h0 =>
    obtain ⟨hsnap, -, -, hget, -⟩ := invokeUpdate_ok_inv horig
    simp only [completeUpdateErr, hsnap]
    have hms : (s0.tasks.set pend.index pend.original).map Task._id
        = (s0.tasks.map Task._id).set pend.index pend.original._id :=
      List.map_set ..
    rw [hms]
    have hgetm : (s0.tasks.map Task._id)[pend.index]? = some pend.original._id := by
      rw [List.getElem?_map, hget]; rfl
    rw [set_of_getElem?_eq _ _ _ hgetm]
    exact h0
  | deleteStart s2 i snap hinv =>
    obtain ⟨-, -, hs1⟩ := invokeDelete_ok_inv hinv
    subst hs1
    exact hn.sublist ((List.filter_sublist s.tasks).map Task._id)
  | deleteOk => exact hn
  | deleteErr s0 s2 i snap msg horig h0 =>
    obtain ⟨hsnap, -, -⟩ := invokeDelete_ok_inv horig
    simp only [completeDeleteErr, hsnap]
    exact h0

/-- C1: for every failing create, update, or delete whose optimistic
snapshot was published (the invocation was accepted), the collection
published by the failure handler equals the collection that existed
immediately before the operation was invoked: create drops the provisional
entity (its temp id being fresh at invocation time), update writes the
captured pre-mutation entity back at its position, delete republishes the
captured snapshot. -/
theorem rollback_restores_preinvoke_collection :
    (∀ (s : ContainerState) (d : Draft) (now : Nat) (msg : String),
        (∀ t ∈ s.tasks, t._id ≠ tempId now) →
        (completeCreateErr (invokeCreate s d now).1 (tempId now) msg).tasks = s.tasks)
    ∧ (∀ (s s1 : ContainerState) (i : String) (p : TaskPatch) (now : Nat)
          (pend : UpdatePending) (msg : String),
        invokeUpdate s i p now = .ok (s1, pend) →
        (completeUpdateErr s1 pend msg).tasks = s.tasks)
    ∧ (∀ (s s1 : ContainerState) (i : String) (snap : List Task) (msg : String),
        invokeDelete s i = .ok (s1, snap) →
        (completeDeleteErr s1 snap msg).tasks = s.tasks) := by
  refine ⟨?_, ?_, ?_⟩
  · intro s d now msg hfresh
    simp only [completeCreateErr, invokeCreate]
    rw [List.filter_append]
    have h1 : s.tasks.filter (fun t => t._id != tempId now) = s.tasks :=
      List.filter_eq_self.2 (fun t ht => by simpa using hfresh t ht)
    have h2 : [mkTempTask d now].filter (fun t => t._id != tempId now) = [] := by
      simp [mkTempTask]
    rw [h1, h2, List.append_nil]
  · intro s s1 i p now pend msg hinv
    obtain ⟨hsnap, -, -, hget, -⟩ := invokeUpdate_ok_inv hinv
    simp only [completeUpdateErr, hsnap]
    exact set_of_getElem?_eq _ _ _ hget
  · intro s s1 i snap msg hinv
    obtain ⟨hsnap, -, -⟩ := invokeDelete_ok_inv hinv
    simpa only [completeDeleteErr] using hsnap

/-- Witness for C1 at concrete inputs: a failing create, update, and delete
on a one-task state each publish that same one-task collection again. -/
theorem rollback_restores_preinvoke_collection_witness :
    (completeCreateErr (invokeCreate exS0 exDraftA 5).1 (tempId 5) "boom").tasks = exS0.tasks
    ∧ (completeUpdateErr exUpd1State exUpd1Pend "boom").tasks = exS0.tasks
    ∧ (completeDeleteErr exDel1State [exTask] "boom").tasks = exS0.tasks := by
  refine ⟨?_, ?_, ?_⟩
  · exact rollback_restores_preinvoke_collection.1 exS0 exDraftA 5 "boom" (by decide)
  · exact rollback_restores_preinvoke_collection.2.1 exS0 exUpd1State "1" exPatch1 1
      exUpd1Pend "boom" (by rfl)
  · exact rollback_restores_preinvoke_collection.2.2 exS0 exDel1State "1" [exTask] "boom" (by rfl)

/-- C2, counterexample: two creates invoked during the same millisecond
both synthesize the id temp-5, so the two concurrently pending creates do
not get distinct temp ids and the published collection holds two entities
with the same id. -/
theorem concurrent_tempIds_collide_counterexample :
    (invokeCreate initialState exDraftA 5).2._id
      = (invokeCreate (invokeCreate initialState exDraftA 5).1 exDraftB 5).2._id
    ∧ ¬ (exDupCreates.tasks.map Task._id).Nodup := by
  exact ⟨rfl, by decide⟩

/-- C2 as amended: along every sequence of container transitions in which
any pending create was synthesized with a temp id distinct from the ids
already published (creates in distinct milliseconds) and the backend only
returns entities whose id collides with no other published entity, id
uniqueness of the published collection is preserved; and after a create is
successfully reconciled with a backend entity carrying a different id, the
temp id no longer appears in the collection. -/
theorem taskIds_nodup_invariant :
    (∀ s s1 : ContainerState, Relation.ReflTransGen OpStep s s1 →
        (s.tasks.map Task._id).Nodup → (s1.tasks.map Task._id).Nodup)
    ∧ (∀ (s : ContainerState) (tid : String) (server : Task),
        server._id ≠ tid →
        tid ∉ (completeCreateOk s tid server).1.tasks.map Task._id) := by
  constructor
  · intro s s1 h
    induction h with
    | refl => exact id
    | tail _ hstep ih => exact fun hn => opStep_preserves_nodup_ids hstep (ih hn)
  · intro s tid server hsrv
    exact not_mem_ids_map_replace s.tasks tid server hsrv

/-- Witness for C2 at concrete inputs: one create step from the empty
initial state keeps ids unique, and reconciling a create against the
server entity leaves no temp-5 id behind. -/
theorem taskIds_nodup_invariant_witness :
    ((invokeCreate initialState exDraftA 5).1.tasks.map Task._id).Nodup
    ∧ "temp-5" ∉ (completeCreateOk exS0 "temp-5" exServer).1.tasks.map Task._id := by
  constructor
  · exact taskIds_nodup_invariant.1 initialState _
      (Relation.ReflTransGen.single (OpStep.createStart initialState exDraftA 5 (by decide)))
      (by decide)
  · exact taskIds_nodup_invariant.2 exS0 "temp-5" exServer (by decide)

/-- C3, counterexample: three sequential updates of the same entity (title,
then description, then status) whose responses arrive in the order one,
three, two. The optimistic snapshot after the three invocations carries
all three changes, but the final authoritative collection equals the
response that arrived last and has lost the status change, so it does not
reflect all three changes merged in invocation order. -/
theorem out_of_order_completion_counterexample :
    exS3.tasks.map Task.status = ["done"]
    ∧ exResp3.status = "done"
    ∧ exFinalOutOfOrder.tasks = [exResp2]
    ∧ exFinalOutOfOrder.tasks.map Task.status = ["todo"]
    ∧ exFinalOutOfOrder.tasks ≠ [exResp3] := by decide

/-- C3 as amended: completion handling is not re-serialized; each update
success handler overwrites the target entity with its own response, so
after three updates of the same id the final authoritative entity equals
the response that arrived last, whatever arrived before. The collection
reflects all three changes merged in invocation order exactly when the
cumulative response is the last to arrive, as when responses arrive in
invocation order. -/
theorem update_completion_last_response_wins :
    ∀ (s : ContainerState) (i : String) (ra rb rc : Task),
      ra._id = i → rb._id = i →
      (completeUpdateOk (completeUpdateOk (completeUpdateOk s i ra) i rb) i rc).tasks
        = s.tasks.map (fun t => if t._id == i then rc else t) := by
  intro s i ra rb rc ha hb
  simp only [completeUpdateOk]
  rw [map_replace_comp _ i ra rb ha, map_replace_comp _ i rb rc hb]

/-- Witness for C3 as amended, at the concrete ordering scenario: with
arrival order one, three, two the final collection is the invocation-order
collection with the target overwritten by response two. -/
theorem update_completion_last_response_wins_witness :
    (completeUpdateOk (completeUpdateOk (completeUpdateOk exS3 "1" exResp1) "1" exResp3)
        "1" exResp2).tasks
      = exS3.tasks.map (fun t => if t._id == "1" then exResp2 else t) :=
  update_completion_last_response_wins exS3 "1" exResp1 exResp3 exResp2 (by decide) (by decide)

/-- C4: loadTasks is guarded against re-entrancy. In every state in which
a load is in flight (loading is published true) a further call returns the
state unchanged and starts no fetch; from an idle state, calling twice
starts the fetch exactly once: the first call starts it, the second is a
no-op, and the number of fetchAll invocations is one. -/
theorem load_reentrancy_guard :
    (∀ s : ContainerState, s.loading = true → invokeLoad s = (s, false))
    ∧ (∀ s : ContainerState, s.loading = false →
        (invokeLoad s).2 = true
        ∧ invokeLoad (invokeLoad s).1 = ((invokeLoad s).1, false)
        ∧ ((if (invokeLoad s).2 then 1 else 0)
            + (if (invokeLoad (invokeLoad s).1).2 then 1 else 0)) = 1) := by
  constructor
  · intro s h
    simp [invokeLoad, h]
  · intro s h
    simp [invokeLoad, h]

/-- Witness for C4 at concrete states: a state with a load in flight
absorbs the call, and a double call from the initial state makes exactly
one fetch. -/
theorem load_reentrancy_guard_witness :
    invokeLoad exDel1State = (exDel1State, false)
    ∧ ((if (invokeLoad initialState).2 then 1 else 0)
        + (if (invokeLoad (invokeLoad initialState).1).2 then 1 else 0)) = 1 :=
  ⟨load_reentrancy_guard.1 exDel1State rfl,
   (load_reentrancy_guard.2 initialState rfl).2.2⟩

/-- C5: the state published synchronously at invocation time is the
optimistic snapshot: for create the collection with the provisional entity
appended (and hence never the pre-mutation collection), for update the
collection with the merged entity written at the position of the target,
for delete the collection with the target filtered out (hence never the
pre-mutation collection). -/
theorem optimistic_snapshot_published_at_invoke :
    (∀ (s : ContainerState) (d : Draft) (now : Nat),
        (invokeCreate s d now).1.tasks = s.tasks ++ [mkTempTask d now]
        ∧ (invokeCreate s d now).1.tasks ≠ s.tasks)
    ∧ (∀ (s s1 : ContainerState) (i : String) (p : TaskPatch) (now : Nat)
          (pend : UpdatePending),
        invokeUpdate s i p now = .ok (s1, pend) →
        s1.tasks = s.tasks.set pend.index (applyPatch pend.original p now))
    ∧ (∀ (s s1 : ContainerState) (i : String) (snap : List Task),
        invokeDelete s i = .ok (s1, snap) →
        s1.tasks = s.tasks.filter (fun t => t._id != i)
        ∧ s1.tasks ≠ s.tasks) := by
  refine ⟨?_, ?_, ?_⟩
  · intro s d now
    refine ⟨rfl, ?_⟩
    intro heq
    have hlen := congrArg List.length heq
    simp [invokeCreate] at hlen
  · intro s s1 i p now pend hinv
    obtain ⟨-, -, -, -, hs1⟩ := invokeUpdate_ok_inv hinv
    rw [hs1]
  · intro s s1 i snap hinv
    obtain ⟨-, ⟨t, ht, hp⟩, hs1⟩ := invokeDelete_ok_inv hinv
    subst hs1
    refine ⟨rfl, ?_⟩
    intro heq
    have heq2 : s.tasks.filter (fun u => u._id != i) = s.tasks := heq
    have htf : t ∈ s.tasks.filter (fun u => u._id != i) := heq2.symm ▸ ht
    have hne := (List.mem_filter.1 htf).2
    simp only [bne_iff_ne, ne_eq] at hne
    exact hne (by simpa using hp)

/-- Witness for C5 at concrete inputs: the published snapshots of a create,
an update, and a delete on the one-task state. -/
theorem optimistic_snapshot_published_at_invoke_witness :
    (invokeCreate exS0 exDraftA 5).1.tasks = exS0.tasks ++ [mkTempTask exDraftA 5]
    ∧ exUpd1State.tasks = exS0.tasks.set 0 (applyPatch exTask exPatch1 1)
    ∧ exDel1State.tasks = exS0.tasks.filter (fun t => t._id != "1") := by
  refine ⟨(optimistic_snapshot_published_at_invoke.1 exS0 exDraftA 5).1, ?_, ?_⟩
  · exact optimistic_snapshot_published_at_invoke.2.1 exS0 exUpd1State "1" exPatch1 1
      exUpd1Pend (by rfl)
  · exact (optimistic_snapshot_published_at_invoke.2.2 exS0 exDel1State "1" [exTask] (by rfl)).1

/-- C6: on a successful create whose temp id was fresh at invocation time
and whose backend entity carries a different id, the success handler
publishes the pre-invocation collection with the backend entity in the
position the provisional entity occupied (here appended last), the temp id
no longer appears anywhere in the collection, and the emission handed to
the caller is the backend entity. -/
theorem create_success_reconciliation :
    ∀ (s : ContainerState) (d : Draft) (now : Nat) (server : Task),
      (∀ t ∈ s.tasks, t._id ≠ tempId now) →
      server._id ≠ tempId now →
      (completeCreateOk (invokeCreate s d now).1 (tempId now) server).1.tasks
          = s.tasks ++ [server]
      ∧ tempId now
          ∉ (completeCreateOk (invokeCreate s d now).1 (tempId now) server).1.tasks.map Task._id
      ∧ (completeCreateOk (invokeCreate s d now).1 (tempId now) server).2 = server := by
  intro s d now server hfresh hsrv
  have htasks : (completeCreateOk (invokeCreate s d now).1 (tempId now) server).1.tasks
      = s.tasks ++ [server] := by
    simp only [completeCreateOk, invokeCreate]
    rw [List.map_append, map_replace_eq_self s.tasks (tempId now) server hfresh]
    congr 1
    simp [mkTempTask]
  refine ⟨htasks, ?_, rfl⟩
  rw [htasks, List.map_append]
  intro hmem
  rcases List.mem_append.1 hmem with hl | hr
  · obtain ⟨t, ht, he⟩ := List.mem_map.1 hl
    exact hfresh t ht he
  · simp only [List.map_cons, List.map_nil, List.mem_singleton] at hr
    exact hsrv hr.symm

/-- Witness for C6 at the spec scenario: creating from the one-task state
and reconciling with the server-1 entity yields the collection with the
server entity appended and no temp id left. -/
theorem create_success_reconciliation_witness :
    (completeCreateOk (invokeCreate exS0 exDraftA 5).1 (tempId 5) exServer).1.tasks
        = exS0.tasks ++ [exServer]
    ∧ tempId 5
        ∉ (completeCreateOk (invokeCreate exS0 exDraftA 5).1 (tempId 5) exServer).1.tasks.map Task._id := by
  have h := create_success_reconciliation exS0 exDraftA 5 exServer (by decide) (by decide)
  exact ⟨h.1, h.2.1⟩

/-- C7, counterexample: updating or deleting an absent id returns the
NotFound error on the return path, but the published error value stays
none: the NotFound failure is not published on the error stream, contrary
to the claim that every failure is surfaced on both channels. -/
theorem notFound_error_not_published_counterexample :
    invokeUpdate exS0 "2" exEmptyPatch 0 = .error "Task not found in state"
    ∧ (updateInvokeState exS0 "2" exEmptyPatch 0).error = none
    ∧ invokeDelete exS0 "2" = .error "Task not found in state"
    ∧ (deleteInvokeState exS0 "2").error = none :=
  ⟨rfl, rfl, rfl, rfl⟩

/-- C7 as amended: when the target id is absent from the current snapshot,
update and delete fail with the NotFound error signalled to the immediate
caller through the return path, while the published error value is left
exactly as it was: the two-channel propagation applies to remote failures,
not to this pre-check. -/
theorem notFound_signalled_on_return_path_only :
    ∀ (s : ContainerState) (i : String) (p : TaskPatch) (now : Nat),
      (∀ t ∈ s.tasks, t._id ≠ i) →
      invokeUpdate s i p now = .error "Task not found in state"
      ∧ invokeDelete s i = .error "Task not found in state"
      ∧ (updateInvokeState s i p now).error = s.error
      ∧ (deleteInvokeState s i).error = s.error := by
  intro s i p now h
  have hidx : s.tasks[s.tasks.findIdx (fun t => t._id == i)]? = none :=
    findIdx_getElem?_none _ _ (fun t ht => by simpa using h t ht)
  have hfind : s.tasks.find? (fun t => t._id == i) = none :=
    List.find?_eq_none.2 (fun t ht => by simpa using h t ht)
  have hu : invokeUpdate s i p now = .error "Task not found in state" := by
    simp only [invokeUpdate, hidx]
  have hd : invokeDelete s i = .error "Task not found in state" := by
    simp only [invokeDelete, hfind]
  refine ⟨hu, hd, ?_, ?_⟩
  · simp only [updateInvokeState, hu]
  · simp only [deleteInvokeState, hd]

/-- Witness for C7 as amended, at a concrete absent id. -/
theorem notFound_signalled_on_return_path_only_witness :
    invokeUpdate exS0 "2" exEmptyPatch 7 = .error "Task not found in state"
    ∧ invokeDelete exS0 "2" = .error "Task not found in state"
    ∧ (updateInvokeState exS0 "2" exEmptyPatch 7).error = exS0.error
    ∧ (deleteInvokeState exS0 "2").error = exS0.error :=
  notFound_signalled_on_return_path_only exS0 "2" exEmptyPatch 7 (by decide)

/-- C8: when a load that started from an idle state fails with a nonempty
message, the published collection is exactly the pre-load collection, the
published error is that message, and loading is back to false. -/
theorem load_failure_frame :
    ∀ (s : ContainerState) (msg : String), s.loading = false → msg ≠ "" →
      (completeLoadErr (invokeLoad s).1 msg).tasks = s.tasks
      ∧ (completeLoadErr (invokeLoad s).1 msg).error = some msg
      ∧ (completeLoadErr (invokeLoad s).1 msg).loading = false := by
  intro s msg hl hm
  have h1 : (invokeLoad s).1 = { s with loading := true, error := none } := by
    simp [invokeLoad, hl]
  rw [h1]
  refine ⟨rfl, ?_, rfl⟩
  simp [completeLoadErr, errOr, hm]

/-- Witness for C8 at a concrete failing load over the one-task state. -/
theorem load_failure_frame_witness :
    (completeLoadErr (invokeLoad exS0).1 "network down").tasks = exS0.tasks
    ∧ (completeLoadErr (invokeLoad exS0).1 "network down").error = some "network down"
    ∧ (completeLoadErr (invokeLoad exS0).1 "network down").loading = false :=
  load_failure_frame exS0 "network down" rfl (by decide)

/-- C9: for every snapshot and status, the value the count-by-status
derived view computes from that snapshot equals the length of the list
obtained by manually filtering the snapshot for entities of that status;
the view is a pure function of the snapshot it observes, so it cannot go
stale relative to it. -/
theorem countByStatus_consistent_with_snapshot :
    ∀ (status : String) (snapshot : List Task),
      getTaskCountByStatus status snapshot = specManualStatusCount status snapshot
      ∧ getTaskCountByStatus status snapshot = (getTasksByStatus status snapshot).length
      ∧ getTaskCountByStatus status snapshot
          = snapshot.countP (fun t => t.status == status) := by
  intro st sn
  refine ⟨rfl, rfl, ?_⟩
  simp [getTaskCountByStatus, List.countP_eq_length_filter]

/-- C10: when update or delete is invoked with an id absent from the
current snapshot, the operation is rejected before any optimistic
application: the whole published state, collection, loading flag and error
value alike, is left unchanged. -/
theorem absent_id_rejected_without_state_change :
    ∀ (s : ContainerState) (i : String) (p : TaskPatch) (now : Nat),
      (∀ t ∈ s.tasks, t._id ≠ i) →
      updateInvokeState s i p now = s ∧ deleteInvokeState s i = s := by
  intro s i p now h
  have hidx : s.tasks[s.tasks.findIdx (fun t => t._id == i)]? = none :=
    findIdx_getElem?_none _ _ (fun t ht => by simpa using h t ht)
  have hfind : s.tasks.find? (fun t => t._id == i) = none :=
    List.find?_eq_none.2 (fun t ht => by simpa using h t ht)
  constructor
  · simp only [updateInvokeState, invokeUpdate, hidx]
  · simp only [deleteInvokeState, invokeDelete, hfind]

/-- Witness for C10 at a concrete absent id on the one-task state. -/
theorem absent_id_rejected_without_state_change_witness :
    updateInvokeState exS0 "2" exEmptyPatch 0 = exS0 ∧ deleteInvokeState exS0 "2" = exS0 :=
  absent_id_rejected_without_state_change exS0 "2" exEmptyPatch 0 (by decide)

end TaskApp
